import Mathlib

set_option maxHeartbeats 1000000

/-!
Verification development for the f1_radio_ptbr backend: a shallow embedding of
the cache-backed data retrieval layer (routes/radio.py, routes/sessions.py,
services/openf1_service.py, services/storage_service.py) together with proofs
about the coordinator decision logic, the file cache store, and the upstream
client parameter construction.

Modelling conventions:
- Python `Optional[int]` and `Optional[str]` query parameters become
  `Option Int` and `Option String`; Python truthiness tests (`if x:`) become
  `truthyInt` and `truthyStr`, under which both `None` and `0` (resp. the
  empty string) are falsy, exactly as in the source.
- `datetime` values become the `Datetime` structure below;
  `datetime.isoformat` and `datetime.fromisoformat` are implemented
  explicitly over lists of characters, covering the canonical output format
  produced by `isoformat` (the only format this system writes and re-reads).
- JSON (de)serialization of the structured cache entry is modelled as the
  identity on the structured value, which is the contract of `json.dumps`
  followed by `json.loads`; the interesting part of the text round trip, the
  datetime encoding, is modelled explicitly.  A file whose raw bytes are
  unreadable or are not valid JSON is a `FileState.corrupt` entry.
- Python floats (the `duration` field) are modelled as rationals; the values
  are carried around untouched by every operation modelled here.
- `await`-ed calls happen in program order within one request, matching the
  single-scheduler model of the source; each handler is a pure function of
  an environment of collaborator results, and additionally returns the list
  of collaborator calls it performed, in order.
-/

namespace F1Radio

/-- Python truthiness of an optional integer: `None` and `0` are falsy. -/
def truthyInt : Option Int → Bool
  | none => false
  | some n => n != 0

/-- Python truthiness of an optional string: `None` and `""` are falsy. -/
def truthyStr : Option String → Bool
  | none => false
  | some s => s != ""

/-- Decimal digit to character, as in the text produced by `isoformat`. -/
def dchar : Nat → Char
  | 0 => '0'
  | 1 => '1'
  | 2 => '2'
  | 3 => '3'
  | 4 => '4'
  | 5 => '5'
  | 6 => '6'
  | 7 => '7'
  | 8 => '8'
  | _ => '9'

/-- Character back to decimal digit value. -/
def dval (c : Char) : Nat := c.toNat - 48

/-- Is the character an ASCII decimal digit. -/
def isDigitC (c : Char) : Bool := 48 ≤ c.toNat && c.toNat ≤ 57

/-- Zero-padded fixed-width decimal rendering, most significant digit first,
as used by `datetime.isoformat` for each numeric component. -/
def padNat : Nat → Nat → List Char
  | 0, _ => []
  | w + 1, n => padNat w (n / 10) ++ [dchar (n % 10)]

/-- Read a digit string (most significant first) back to a number. -/
def readNat (cs : List Char) : Nat := cs.foldl (fun a c => a * 10 + dval c) 0


/-- Fixed-width digit-run parser used to read each `isoformat` component. -/
def parseFixed (w : Nat) (cs : List Char) : Option (Nat × List Char) :=
  if (cs.take w).length = w && (cs.take w).all isDigitC then
    some (readNat (cs.take w), cs.drop w)
  else none


/-- Consume one expected separator character. -/
def expectC (c : Char) : List Char → Option (List Char)
  | x :: xs => if x = c then some xs else none
  | [] => none


/-- A Python aware or naive datetime value, by calendar components, with the
UTC offset in minutes when aware (`none` when naive). -/
structure Datetime where
  year : Nat
  month : Nat
  day : Nat
  hour : Nat
  minute : Nat
  second : Nat
  microsecond : Nat
  tz : Option Int
  deriving Repr, DecidableEq

/-- Validity of the stored offset: Python timezone offsets are strictly
between minus one day and one day. -/
def tzValid : Option Int → Bool
  | none => true
  | some o => o.natAbs ≤ 1439

/-- The component ranges every real Python `datetime` satisfies. -/
def Datetime.valid (d : Datetime) : Prop :=
  1 ≤ d.year ∧ d.year ≤ 9999 ∧ 1 ≤ d.month ∧ d.month ≤ 12 ∧ 1 ≤ d.day ∧ d.day ≤ 31 ∧
    d.hour ≤ 23 ∧ d.minute ≤ 59 ∧ d.second ≤ 59 ∧ d.microsecond ≤ 999999 ∧
    tzValid d.tz = true

instance (d : Datetime) : Decidable d.valid := by
  unfold Datetime.valid; infer_instance

/-- Offset suffix emitted by `datetime.isoformat` for aware values. -/
def tzPart : Option Int → List Char
  | none => []
  | some off =>
    (if off < 0 then '-' else '+') ::
      (padNat 2 (off.natAbs / 60) ++ ':' :: padNat 2 (off.natAbs % 60))

/-- Fractional-second part emitted by `datetime.isoformat`: present exactly
when the microsecond component is nonzero. -/
def microPart (us : Nat) : List Char := if us = 0 then [] else '.' :: padNat 6 us

/-- The text produced by `datetime.isoformat` (canonical form). -/
def Datetime.isoformat (d : Datetime) : List Char :=
  padNat 4 d.year ++ '-' ::
    (padNat 2 d.month ++ '-' ::
      (padNat 2 d.day ++ 'T' ::
        (padNat 2 d.hour ++ ':' ::
          (padNat 2 d.minute ++ ':' ::
            (padNat 2 d.second ++ (microPart d.microsecond ++ tzPart d.tz))))))

/-- Parse the optional fractional-second part. -/
def parseMicro (cs : List Char) : Option (Nat × List Char) :=
  match cs with
  | x :: rest => if x = '.' then parseFixed 6 rest else some (0, cs)
  | [] => some (0, [])

/-- Parse the two offset components after the sign of a UTC offset suffix. -/
def parseTzTail (neg : Bool) (cs : List Char) : Option (Option Int × List Char) :=
  match parseFixed 2 cs with
  | none => none
  | some (h, cs1) =>
    match expectC ':' cs1 with
    | none => none
    | some cs2 =>
      match parseFixed 2 cs2 with
      | none => none
      | some (m, cs3) =>
        some (some (if neg then -((h * 60 + m : Nat) : Int) else ((h * 60 + m : Nat) : Int)), cs3)

/-- Parse the optional UTC offset suffix. -/
def parseTz (cs : List Char) : Option (Option Int × List Char) :=
  match cs with
  | [] => some (none, [])
  | x :: rest =>
    if x = '+' then parseTzTail false rest
    else if x = '-' then parseTzTail true rest
    else none

/-- The model of `datetime.fromisoformat` on the canonical format this system
reads back (its own `isoformat` output and the upstream timestamps after the
`Z` suffix is replaced by an explicit offset). -/
def fromisoformat (cs : List Char) : Option Datetime :=
  (parseFixed 4 cs).bind fun p1 =>
    (expectC '-' p1.2).bind fun cs2 =>
      (parseFixed 2 cs2).bind fun p2 =>
        (expectC '-' p2.2).bind fun cs3 =>
          (parseFixed 2 cs3).bind fun p3 =>
            (expectC 'T' p3.2).bind fun cs4 =>
              (parseFixed 2 cs4).bind fun p4 =>
                (expectC ':' p4.2).bind fun cs5 =>
                  (parseFixed 2 cs5).bind fun p5 =>
                    (expectC ':' p5.2).bind fun cs6 =>
                      (parseFixed 2 cs6).bind fun p6 =>
                        (parseMicro p6.2).bind fun p7 =>
                          (parseTz p7.2).bind fun p8 =>
                            if p8.2 = [] then
                              some ⟨p1.1, p2.1, p3.1, p4.1, p5.1, p6.1, p7.1, p8.1⟩
                            else none


/-! Data model (models/radio.py and models/session.py). -/

/-- The `RadioCategory` enumeration of models/radio.py. -/
inductive RadioCategory
  | team_radio
  | driver_radio
  | race_control
  deriving Repr, DecidableEq

/-- The string value backing each `RadioCategory` member. -/
def RadioCategory.str : RadioCategory → String
  | .team_radio => "team_radio"
  | .driver_radio => "driver_radio"
  | .race_control => "race_control"

/-- Validation of a stored category string back to the enumeration, as
pydantic performs when a cache entry is re-read. -/
def RadioCategory.ofStr (s : String) : Option RadioCategory :=
  if s = "team_radio" then some .team_radio
  else if s = "driver_radio" then some .driver_radio
  else if s = "race_control" then some .race_control
  else none


/-- The `Driver` model of models/radio.py. -/
structure Driver where
  driver_number : Int
  broadcast_name : Option String
  country_code : Option String
  first_name : Option String
  full_name : Option String
  headshot_url : Option String
  last_name : Option String
  team_colour : Option String
  team_name : Option String
  name_acronym : Option String
  deriving Repr, DecidableEq

/-- The `RadioMessage` model of models/radio.py.  The float `duration` is
modelled as a rational. -/
structure RadioMessage where
  date : Datetime
  driver_number : Option Int
  meeting_key : Int
  recording_url : String
  session_key : Int
  category : Option RadioCategory
  duration : Option Rat
  transcription : Option String
  driver_info : Option Driver
  deriving Repr, DecidableEq

/-- The `Session` model of models/session.py. -/
structure Session where
  circuit_key : Int
  circuit_short_name : String
  country_code : String
  country_key : Int
  country_name : String
  date_end : Datetime
  date_start : Datetime
  gmt_offset : String
  location : String
  meeting_key : Int
  session_key : Int
  session_name : String
  session_type : String
  year : Int
  deriving Repr, DecidableEq

/-! Cache store (services/storage_service.py, class LocalStorageService).

A radio cache file holds the JSON object written by `save_radios`; its
`radios` array holds one object per message, produced by `model_dump` with
the `date` replaced by its `isoformat` text.  The JSON text layer is the
identity on this structured value, so the file content is modelled as the
structured value itself; a file that exists but cannot be read back as such
a value (unreadable bytes, malformed JSON) is `FileState.corrupt`. -/

/-- One element of the `radios` array of a cache file: the `model_dump`
image of a `RadioMessage` with the date rendered as text. -/
structure RadioDict where
  date : String
  driver_number : Option Int
  meeting_key : Int
  recording_url : String
  session_key : Int
  category : Option String
  duration : Option Rat
  transcription : Option String
  driver_info : Option Driver
  deriving Repr, DecidableEq

/-- `model_dump` plus the explicit `isoformat` conversion done by
`save_radios` before `json.dumps`. -/
def encodeRadio (r : RadioMessage) : RadioDict :=
  { date := String.mk r.date.isoformat
    driver_number := r.driver_number
    meeting_key := r.meeting_key
    recording_url := r.recording_url
    session_key := r.session_key
    category := r.category.map RadioCategory.str
    duration := r.duration
    transcription := r.transcription
    driver_info := r.driver_info }

/-- The reconstruction done by `load_radios` for one array element:
`datetime.fromisoformat` on the date text, then pydantic validation
(`RadioMessage(**radio_data)`), which re-validates the category string.
Any failure raises, which the caller converts to an absent result. -/
def decodeRadio (j : RadioDict) : Option RadioMessage :=
  match fromisoformat j.date.data with
  | none => none
  | some d =>
    match j.category with
    | none =>
      some { date := d, driver_number := j.driver_number, meeting_key := j.meeting_key,
             recording_url := j.recording_url, session_key := j.session_key,
             category := none, duration := j.duration,
             transcription := j.transcription, driver_info := j.driver_info }
    | some s =>
      match RadioCategory.ofStr s with
      | none => none
      | some c =>
        some { date := d, driver_number := j.driver_number, meeting_key := j.meeting_key,
               recording_url := j.recording_url, session_key := j.session_key,
               category := some c, duration := j.duration,
               transcription := j.transcription, driver_info := j.driver_info }

/-- Reconstruction of the whole `radios` array; one bad element fails the
whole load, as one raised exception aborts the loop in `load_radios`. -/
def decodeRadios : List RadioDict → Option (List RadioMessage)
  | [] => some []
  | j :: js =>
    match decodeRadio j with
    | none => none
    | some r =>
      match decodeRadios js with
      | none => none
      | some rs => some (r :: rs)


/-- One element of the `sessions` array of the global sessions cache file. -/
structure SessionDict where
  circuit_key : Int
  circuit_short_name : String
  country_code : String
  country_key : Int
  country_name : String
  date_end : String
  date_start : String
  gmt_offset : String
  location : String
  meeting_key : Int
  session_key : Int
  session_name : String
  session_type : String
  year : Int
  deriving Repr, DecidableEq

/-- `model_dump` plus the `isoformat` conversions done by `save_sessions`. -/
def encodeSession (s : Session) : SessionDict :=
  { circuit_key := s.circuit_key, circuit_short_name := s.circuit_short_name,
    country_code := s.country_code, country_key := s.country_key,
    country_name := s.country_name,
    date_end := String.mk s.date_end.isoformat,
    date_start := String.mk s.date_start.isoformat,
    gmt_offset := s.gmt_offset, location := s.location,
    meeting_key := s.meeting_key, session_key := s.session_key,
    session_name := s.session_name, session_type := s.session_type, year := s.year }

/-- The reconstruction done by `load_sessions` for one array element. -/
def decodeSession (j : SessionDict) : Option Session :=
  match fromisoformat j.date_start.data with
  | none => none
  | some ds =>
    match fromisoformat j.date_end.data with
    | none => none
    | some de =>
      some { circuit_key := j.circuit_key, circuit_short_name := j.circuit_short_name,
             country_code := j.country_code, country_key := j.country_key,
             country_name := j.country_name, date_end := de, date_start := ds,
             gmt_offset := j.gmt_offset, location := j.location,
             meeting_key := j.meeting_key, session_key := j.session_key,
             session_name := j.session_name, session_type := j.session_type,
             year := j.year }

/-- Reconstruction of the whole `sessions` array. -/
def decodeSessions : List SessionDict → Option (List Session)
  | [] => some []
  | j :: js =>
    match decodeSession j with
    | none => none
    | some s =>
      match decodeSessions js with
      | none => none
      | some ss => some (s :: ss)

/-- The JSON object written by `save_radios` for one session key. -/
structure RadioFile where
  session_key : Int
  saved_at : String
  count : Nat
  radios : List RadioDict
  deriving Repr, DecidableEq

/-- The JSON object written by `save_sessions` under the single global key. -/
structure SessionsFile where
  saved_at : String
  count : Nat
  sessions : List SessionDict
  deriving Repr, DecidableEq

/-- State of one cache file: absent, present but unreadable or not valid
JSON, or a readable structured entry. -/
inductive FileState (α : Type)
  | missing
  | corrupt
  | good (content : α)
  deriving Repr, DecidableEq

/-- The file-system state seen by `LocalStorageService`: one radio file per
session key, the single global sessions file, and whether writes currently
fail (disk or permission errors raised from inside `aiofiles`). -/
structure Storage where
  radioFiles : Int → FileState RadioFile
  sessionsFile : FileState SessionsFile
  writeFails : Bool

/-- The entry body built by `save_radios`: note `count` is the length of the
input list and `radios` is its `model_dump` image. -/
def mkRadioFile (radios : List RadioMessage) (session_key : Int) (now : String) : RadioFile :=
  { session_key := session_key, saved_at := now, count := radios.length,
    radios := radios.map encodeRadio }

/-- The entry body built by `save_sessions`. -/
def mkSessionsFile (sessions : List Session) (now : String) : SessionsFile :=
  { saved_at := now, count := sessions.length, sessions := sessions.map encodeSession }

/-- `save_radios`: replaces the file for the key wholesale and returns true,
or returns false (leaving the old state) when the write raises; the raise is
caught at the operation boundary. -/
def save_radios (st : Storage) (radios : List RadioMessage) (session_key : Int)
    (now : String) : Bool × Storage :=
  if st.writeFails then (false, st)
  else
    (true,
      { st with
        radioFiles := fun k =>
          if k = session_key then .good (mkRadioFile radios session_key now)
          else st.radioFiles k })

/-- `save_sessions`: same contract for the single global sessions entry. -/
def save_sessions (st : Storage) (sessions : List Session) (now : String) : Bool × Storage :=
  if st.writeFails then (false, st)
  else (true, { st with sessionsFile := .good (mkSessionsFile sessions now) })

/-- The body of `load_radios` before its `except` boundary: a missing file
returns no data without raising; a corrupt file raises in `json.loads`; a
readable file raises during date or model reconstruction when any element
is invalid. -/
def load_radios_body (st : Storage) (session_key : Int) :
    Except String (Option (List RadioMessage)) :=
  match st.radioFiles session_key with
  | .missing => .ok none
  | .corrupt => .error "json.loads"
  | .good f =>
    match decodeRadios f.radios with
    | none => .error "reconstruction"
    | some radios => .ok (some radios)

/-- `load_radios` with its boundary: every raise becomes an absent result. -/
def load_radios (st : Storage) (session_key : Int) : Option (List RadioMessage) :=
  match load_radios_body st session_key with
  | .ok r => r
  | .error _ => none

/-- The body of `load_sessions` before its `except` boundary. -/
def load_sessions_body (st : Storage) : Except String (Option (List Session)) :=
  match st.sessionsFile with
  | .missing => .ok none
  | .corrupt => .error "json.loads"
  | .good f =>
    match decodeSessions f.sessions with
    | none => .error "reconstruction"
    | some sessions => .ok (some sessions)

/-- `load_sessions` with its boundary: every raise becomes an absent result. -/
def load_sessions (st : Storage) : Option (List Session) :=
  match load_sessions_body st with
  | .ok r => r
  | .error _ => none

/-! Upstream client parameter construction (services/openf1_service.py).

Each `get_*` method builds its query dictionary with `if arg:` guards, so an
argument that is `None` or falsy (`0`, `""`) is omitted from the upstream
query.  A query dictionary is modelled as a record of optional values, one
per possible key. -/

/-- Query parameters sent by `get_team_radio`. -/
structure RadioParams where
  session_key : Option Int
  driver_number : Option Int
  meeting_key : Option Int
  deriving Repr, DecidableEq

/-- The parameter dictionary built by `get_team_radio`. -/
def teamRadioParams (session_key driver_number meeting_key : Option Int) : RadioParams :=
  { session_key := if truthyInt session_key then session_key else none,
    driver_number := if truthyInt driver_number then driver_number else none,
    meeting_key := if truthyInt meeting_key then meeting_key else none }

/-- Query parameters sent by `get_sessions`. -/
structure SessionParams where
  meeting_key : Option Int
  session_name : Option String
  year : Option Int
  deriving Repr, DecidableEq

/-- The parameter dictionary built by `get_sessions`. -/
def sessionsParams (meeting_key : Option Int) (session_name : Option String)
    (year : Option Int) : SessionParams :=
  { meeting_key := if truthyInt meeting_key then meeting_key else none,
    session_name := if truthyStr session_name then session_name else none,
    year := if truthyInt year then year else none }

/-- Query parameters sent by `get_drivers`. -/
structure DriverParams where
  session_key : Option Int
  deriving Repr, DecidableEq

/-- The parameter dictionary built by `get_drivers`. -/
def driversParams (session_key : Option Int) : DriverParams :=
  { session_key := if truthyInt session_key then session_key else none }

/-! Route handlers (routes/radio.py and routes/sessions.py).

Each handler is modelled as a pure function of its arguments and an
environment giving the results of its collaborator calls: what the cache
store returns for each load, whether each save succeeds, and what each
upstream fetch returns (`Except Unit` since an upstream fetch may raise).
Besides the handler result (`Except Nat` carries the HTTP error status of a
raised `HTTPException`), the model returns the ordered list of collaborator
calls the handler performed, which is what the cache-policy claims are
about. -/

/-- One collaborator call performed by a handler. -/
inductive Event
  | loadRadios (session_key : Int)
  | saveRadios (session_key : Int) (radios : List RadioMessage)
  | fetchTeamRadio (p : RadioParams)
  | loadSessions
  | saveSessions (sessions : List Session)
  | fetchSessions (p : SessionParams)
  deriving Repr, DecidableEq

/-- Results of collaborator calls available to a handler. -/
structure Env where
  loadRadios : Int → Option (List RadioMessage)
  saveRadiosOk : Int → List RadioMessage → Bool
  fetchTeamRadio : RadioParams → Except Unit (List RadioMessage)
  loadSessions : Option (List Session)
  saveSessionsOk : List Session → Bool
  fetchSessions : SessionParams → Except Unit (List Session)

/-- Linearization of a datetime used for sorting: lexicographic on the
calendar components.  All datetimes this system sorts carry the same UTC
offset (upstream timestamps are normalized to an explicit +00:00 before
parsing), for which Python datetime comparison is exactly this
field-lexicographic order. -/
def dateKey (d : Datetime) : Nat :=
  ((((d.year * 100 + d.month) * 100 + d.day) * 100 + d.hour) * 100 + d.minute) * 100 * 1000000 +
    d.second * 1000000 + d.microsecond

/-- Descending-by-date order on radio messages (`radios.sort` with
`key=lambda x: x.date, reverse=True`). -/
def radioDescRel : RadioMessage → RadioMessage → Prop :=
  fun a b => dateKey b.date ≤ dateKey a.date

instance : DecidableRel radioDescRel := fun a b => Nat.decLe _ _

instance : IsTotal RadioMessage radioDescRel :=
  ⟨fun x y => (Nat.le_total (dateKey y.date) (dateKey x.date)).imp id id⟩

instance : IsTrans RadioMessage radioDescRel :=
  ⟨fun _ _ _ h1 h2 => Nat.le_trans h2 h1⟩

/-- Stable sort of radio messages, most recent first. -/
def sortRadiosDesc (l : List RadioMessage) : List RadioMessage :=
  List.insertionSort radioDescRel l

/-- Descending-by-start-date order on sessions (`sessions.sort` with
`key=lambda x: x.date_start, reverse=True`). -/
def sessDescRel : Session → Session → Prop :=
  fun a b => dateKey b.date_start ≤ dateKey a.date_start

instance : DecidableRel sessDescRel := fun a b => Nat.decLe _ _

instance : IsTotal Session sessDescRel :=
  ⟨fun x y => (Nat.le_total (dateKey y.date_start) (dateKey x.date_start)).imp id id⟩

instance : IsTrans Session sessDescRel :=
  ⟨fun _ _ _ h1 h2 => Nat.le_trans h2 h1⟩

/-- Stable sort of sessions, most recent start first. -/
def sortSessionsDesc (l : List Session) : List Session :=
  List.insertionSort sessDescRel l

/-- The slice `radios[(page-1)*per_page : (page-1)*per_page + per_page]`. -/
def paginate {α : Type} (l : List α) (page per_page : Nat) : List α :=
  (l.drop ((page - 1) * per_page)).take per_page

/-- The driver filter of `get_session_radios`: applied only when the
supplied driver number is truthy. -/
def driverFilter (driver_number : Option Int) (radios : List RadioMessage) :
    List RadioMessage :=
  if truthyInt driver_number then radios.filter (fun r => r.driver_number == driver_number)
  else radios

/-- The response model `RadioResponse` of models/radio.py (without the
optional session info, which `get_session_radios` never sets). -/
structure RadioResponse where
  radios : List RadioMessage
  total : Nat
  page : Nat
  per_page : Nat
  deriving Repr, DecidableEq

/-- The filter, sort and pagination tail of `get_session_radios`. -/
def finalizeRadios (radios : List RadioMessage) (driver_number : Option Int)
    (page per_page : Nat) : RadioResponse :=
  let sorted := sortRadiosDesc (driverFilter driver_number radios)
  { radios := paginate sorted page per_page, total := sorted.length,
    page := page, per_page := per_page }

/-- The handler `get_session_radios` of routes/radio.py: cache first when
`use_cache` and the cached list is truthy (present and non-empty), otherwise
fetch upstream and save unconditionally, ignoring the save outcome; then
filter, sort and paginate. -/
def get_session_radios (env : Env) (session_key : Int) (driver_number : Option Int)
    (page per_page : Nat) (use_cache : Bool) : Except Nat RadioResponse × List Event :=
  let cached : Option (List RadioMessage) :=
    if use_cache then env.loadRadios session_key else none
  let ev0 : List Event := if use_cache then [.loadRadios session_key] else []
  match cached with
  | some (r :: rs) => (.ok (finalizeRadios (r :: rs) driver_number page per_page), ev0)
  | _ =>
    let p := teamRadioParams (some session_key) none none
    match env.fetchTeamRadio p with
    | .error _ => (.error 500, ev0 ++ [.fetchTeamRadio p])
    | .ok fetched =>
      (.ok (finalizeRadios fetched driver_number page per_page),
        ev0 ++ [.fetchTeamRadio p, .saveRadios session_key fetched])

/-- Action reported by the sync endpoint. -/
inductive SyncAction
  | cache_used
  | synced
  deriving Repr, DecidableEq

/-- The body of a successful sync response. -/
structure SyncResult where
  radio_count : Nat
  action : SyncAction
  deriving Repr, DecidableEq

/-- The handler `sync_session_radios` of routes/radio.py: report the cache
when it holds a truthy (non-empty) list and no refresh is forced; otherwise
fetch upstream, overwrite the entry, and fail with a 500 exactly when that
save reports failure. -/
def sync_session_radios (env : Env) (session_key : Int) (force_refresh : Bool) :
    Except Nat SyncResult × List Event :=
  let ev0 : List Event := [.loadRadios session_key]
  match env.loadRadios session_key, force_refresh with
  | some (r :: rs), false =>
    (.ok { radio_count := (r :: rs).length, action := .cache_used }, ev0)
  | _, _ =>
    let p := teamRadioParams (some session_key) none none
    match env.fetchTeamRadio p with
    | .error _ => (.error 500, ev0 ++ [.fetchTeamRadio p])
    | .ok fetched =>
      if env.saveRadiosOk session_key fetched then
        (.ok { radio_count := fetched.length, action := .synced },
          ev0 ++ [.fetchTeamRadio p, .saveRadios session_key fetched])
      else
        (.error 500, ev0 ++ [.fetchTeamRadio p, .saveRadios session_key fetched])

/-- The handler `get_sessions` of routes/sessions.py: the global cache is
consulted only when `use_cache` holds and neither `meeting_key` nor
`session_name` is truthy; a truthy `year` is applied as an in-memory filter
over a truthy cached list; when the resulting list is falsy (no cache
consulted, cache miss, or empty after the year filter) the upstream is
queried with all three filters, and the fetched list is written back
whenever `meeting_key` and `session_name` are not truthy. -/
def get_sessions_route (env : Env) (year meeting_key : Option Int)
    (session_name : Option String) (use_cache : Bool) :
    Except Nat (List Session) × List Event :=
  let general : Bool := !(truthyInt meeting_key || truthyStr session_name)
  let step1 : Option (List Session) × List Event :=
    if use_cache && general then
      match env.loadSessions with
      | none => (none, [Event.loadSessions])
      | some l =>
        if !l.isEmpty && truthyInt year then
          (some (l.filter fun s => (some s.year : Option Int) == year), [Event.loadSessions])
        else (some l, [Event.loadSessions])
    else (none, [])
  match step1 with
  | (some (s :: ss), ev0) => (.ok (sortSessionsDesc (s :: ss)), ev0)
  | (_, ev0) =>
    let p := sessionsParams meeting_key session_name year
    match env.fetchSessions p with
    | .error _ => (.error 500, ev0 ++ [.fetchSessions p])
    | .ok fetched =>
      if general then
        (.ok (sortSessionsDesc fetched), ev0 ++ [.fetchSessions p, .saveSessions fetched])
      else
        (.ok (sortSessionsDesc fetched), ev0 ++ [.fetchSessions p])

/-- `get_latest_session` of services/openf1_service.py: fetch all sessions
with no filters, return the first after the descending sort, absorbing every
failure (and the no-sessions case) into an absent result. -/
def get_latest_session (env : Env) : Option Session × List Event :=
  let p := sessionsParams none none none
  match env.fetchSessions p with
  | .error _ => (none, [.fetchSessions p])
  | .ok l =>
    match sortSessionsDesc l with
    | [] => (none, [.fetchSessions p])
    | s :: _ => (some s, [.fetchSessions p])

/-! Concrete fixtures used by counterexamples and witnesses. -/

/-- A concrete aware datetime (UTC). -/
def dtEx2023 : Datetime := ⟨2023, 9, 16, 13, 0, 0, 0, some 0⟩

/-- Another concrete aware datetime (UTC), one season earlier. -/
def dtEx2022 : Datetime := ⟨2022, 9, 18, 14, 30, 0, 500000, some 0⟩

/-- A concrete 2023 session. -/
def sessEx2023 : Session :=
  { circuit_key := 39, circuit_short_name := "Monza", country_code := "ITA",
    country_key := 13, country_name := "Italy", date_end := dtEx2023,
    date_start := dtEx2023, gmt_offset := "02:00:00", location := "Monza",
    meeting_key := 1219, session_key := 9158, session_name := "Race",
    session_type := "Race", year := 2023 }

/-- A concrete 2022 session. -/
def sessEx2022 : Session :=
  { circuit_key := 39, circuit_short_name := "Monza", country_code := "ITA",
    country_key := 13, country_name := "Italy", date_end := dtEx2022,
    date_start := dtEx2022, gmt_offset := "02:00:00", location := "Monza",
    meeting_key := 1100, session_key := 9000, session_name := "Race",
    session_type := "Race", year := 2022 }

/-- A concrete radio message. -/
def rmsgEx : RadioMessage :=
  { date := dtEx2023, driver_number := some 1, meeting_key := 1219,
    recording_url := "https://example.invalid/radio.mp3", session_key := 9158,
    category := some .team_radio, duration := none, transcription := none,
    driver_info := none }

/-- An empty, writable file-system state. -/
def stEx : Storage :=
  { radioFiles := fun _ => .missing, sessionsFile := .missing, writeFails := false }

/-- A fully corrupt file-system state whose writes also fail. -/
def stC8 : Storage :=
  { radioFiles := fun _ => .corrupt, sessionsFile := .corrupt, writeFails := true }

/-- Environment for the C1 check: the sessions cache file is absent and the
upstream answers a year-filtered query with a strict subset of its
unfiltered answer. -/
def envC1 : Env :=
  { loadRadios := fun _ => none, saveRadiosOk := fun _ _ => true,
    fetchTeamRadio := fun _ => .ok [], loadSessions := none,
    saveSessionsOk := fun _ => true,
    fetchSessions := fun p =>
      if p.year = some 2023 then .ok [sessEx2023] else .ok [sessEx2023, sessEx2022] }

/-- Environment for the C3 counterexample: the radio cache entry for key
9158 is present but holds an empty list (exactly what an earlier save of an
empty upstream result leaves behind). -/
def envC3 : Env :=
  { loadRadios := fun k => if k = 9158 then some [] else none,
    saveRadiosOk := fun _ _ => true, fetchTeamRadio := fun _ => .ok [rmsgEx],
    loadSessions := none, saveSessionsOk := fun _ => true,
    fetchSessions := fun _ => .ok [] }

/-- Environment with a non-empty cached radio list for key 9158. -/
def envW2 : Env :=
  { loadRadios := fun k => if k = 9158 then some [rmsgEx] else none,
    saveRadiosOk := fun _ _ => true, fetchTeamRadio := fun _ => .ok [rmsgEx],
    loadSessions := none, saveSessionsOk := fun _ => true,
    fetchSessions := fun _ => .ok [] }

/-- Environment whose upstream sessions fetch always succeeds with one
session. -/
def envW4 : Env :=
  { loadRadios := fun _ => none, saveRadiosOk := fun _ _ => true,
    fetchTeamRadio := fun _ => .ok [], loadSessions := some [sessEx2022],
    saveSessionsOk := fun _ => true, fetchSessions := fun _ => .ok [sessEx2023] }

/-- Environment whose upstream sessions fetch always raises. -/
def envW7err : Env :=
  { loadRadios := fun _ => none, saveRadiosOk := fun _ _ => true,
    fetchTeamRadio := fun _ => .ok [], loadSessions := none,
    saveSessionsOk := fun _ => true, fetchSessions := fun _ => .error () }

/-- Environment whose upstream has zero sessions. -/
def envW7empty : Env :=
  { loadRadios := fun _ => none, saveRadiosOk := fun _ _ => true,
    fetchTeamRadio := fun _ => .ok [], loadSessions := none,
    saveSessionsOk := fun _ => true, fetchSessions := fun _ => .ok [] }

/-! Lemmas about the digit and datetime text encoding and the cache
entry reconstruction. -/

theorem dchar_spec : ∀ d < 10, isDigitC (dchar d) = true ∧ dval (dchar d) = d := by decide

theorem padNat_length (w : Nat) : ∀ n, (padNat w n).length = w := by
  induction w with
  | zero => intro n; rfl
  | succ w ih => intro n; simp [padNat, ih]

theorem padNat_all_digits (w : Nat) : ∀ n, (padNat w n).all isDigitC = true := by
  induction w with
  | zero => intro n; rfl
  | succ w ih =>
    intro n
    have hd := (dchar_spec (n % 10) (Nat.mod_lt _ (by omega))).1
    simp [padNat, List.all_append, ih, hd]

theorem readNat_append_digit (l : List Char) (c : Char) :
    readNat (l ++ [c]) = readNat l * 10 + dval c := by
  simp [readNat, List.foldl_append]

theorem readNat_padNat (w : Nat) : ∀ n, n < 10 ^ w → readNat (padNat w n) = n := by
  induction w with
  | zero =>
    intro n h
    have : n = 0 := by simpa using h
    simp [this, padNat, readNat]
  | succ w ih =>
    intro n h
    have h10 : n / 10 < 10 ^ w := by
      rw [Nat.div_lt_iff_lt_mul (by omega)]
      calc n < 10 ^ (w + 1) := h
        _ = 10 ^ w * 10 := by ring
    have hm := (dchar_spec (n % 10) (Nat.mod_lt _ (by omega))).2
    rw [padNat, readNat_append_digit, ih _ h10, hm]
    omega

theorem take_len_append {α : Type} (l r : List α) (w : Nat) (h : l.length = w) :
    (l ++ r).take w = l := by
  subst h; exact List.take_left _ _

theorem drop_len_append {α : Type} (l r : List α) (w : Nat) (h : l.length = w) :
    (l ++ r).drop w = r := by
  subst h; exact List.drop_left _ _

theorem parseFixed_pad (w n : Nat) (h : n < 10 ^ w) (rest : List Char) :
    parseFixed w (padNat w n ++ rest) = some (n, rest) := by
  have hlen := padNat_length w n
  have htake : (padNat w n ++ rest).take w = padNat w n := take_len_append _ _ _ hlen
  have hdrop : (padNat w n ++ rest).drop w = rest := drop_len_append _ _ _ hlen
  simp [parseFixed, htake, hdrop, hlen, padNat_all_digits, readNat_padNat w n h]

theorem parseFixed_pad_nil (w n : Nat) (h : n < 10 ^ w) :
    parseFixed w (padNat w n) = some (n, []) := by
  simpa using parseFixed_pad w n h []

theorem expectC_cons_self (c : Char) (cs : List Char) : expectC c (c :: cs) = some cs := by
  simp [expectC]

theorem parseMicro_dot (cs : List Char) : parseMicro ('.' :: cs) = parseFixed 6 cs := rfl

theorem parseMicro_tzPart (o : Option Int) : parseMicro (tzPart o) = some (0, tzPart o) := by
  cases o with
  | none => rfl
  | some off =>
    by_cases hs : off < 0
    · simp only [tzPart, if_pos hs]; rfl
    · simp only [tzPart, if_neg hs]; rfl

theorem parseTzTail_pad_neg (a b : Nat) (ha : a < 10 ^ 2) (hb : b < 10 ^ 2) :
    parseTzTail true (padNat 2 a ++ ':' :: padNat 2 b) =
      some (some (-((a * 60 + b : Nat) : Int)), []) := by
  simp [parseTzTail, parseFixed_pad 2 a ha, expectC_cons_self, parseFixed_pad_nil 2 b hb]

theorem parseTzTail_pad_pos (a b : Nat) (ha : a < 10 ^ 2) (hb : b < 10 ^ 2) :
    parseTzTail false (padNat 2 a ++ ':' :: padNat 2 b) =
      some (some ((a * 60 + b : Nat) : Int), []) := by
  simp [parseTzTail, parseFixed_pad 2 a ha, expectC_cons_self, parseFixed_pad_nil 2 b hb]

theorem parseTz_tzPart (o : Option Int) (h : tzValid o = true) :
    parseTz (tzPart o) = some (o, []) := by
  cases o with
  | none => rfl
  | some off =>
    have h1 : off.natAbs ≤ 1439 := by simpa [tzValid] using h
    have ha : off.natAbs / 60 < 10 ^ 2 := by omega
    have hb : off.natAbs % 60 < 10 ^ 2 := by omega
    by_cases hs : off < 0
    · rw [tzPart, if_pos hs]
      have heq : parseTz ('-' :: (padNat 2 (off.natAbs / 60) ++ ':' :: padNat 2 (off.natAbs % 60)))
          = parseTzTail true (padNat 2 (off.natAbs / 60) ++ ':' :: padNat 2 (off.natAbs % 60)) := rfl
      rw [heq, parseTzTail_pad_neg _ _ ha hb]
      simp only [Option.some.injEq, Prod.mk.injEq, and_true]
      omega
    · rw [tzPart, if_neg hs]
      have heq : parseTz ('+' :: (padNat 2 (off.natAbs / 60) ++ ':' :: padNat 2 (off.natAbs % 60)))
          = parseTzTail false (padNat 2 (off.natAbs / 60) ++ ':' :: padNat 2 (off.natAbs % 60)) := rfl
      rw [heq, parseTzTail_pad_pos _ _ ha hb]
      simp only [Option.some.injEq, Prod.mk.injEq, and_true]
      omega

/-- Round trip of the datetime text encoding: re-parsing the `isoformat`
rendering of any valid datetime recovers it exactly. -/
theorem fromisoformat_isoformat (d : Datetime) (h : d.valid) :
    fromisoformat d.isoformat = some d := by
  obtain ⟨y, mo, da, ho, mi, se, us, tz⟩ := d
  simp only [Datetime.valid] at h
  obtain ⟨h1, h2, h3, h4, h5, h6, h7, h8, h9, h10, h11⟩ := h
  have hy : y < 10 ^ 4 := by omega
  have hmo : mo < 10 ^ 2 := by omega
  have hda : da < 10 ^ 2 := by omega
  have hho : ho < 10 ^ 2 := by omega
  have hmi : mi < 10 ^ 2 := by omega
  have hse : se < 10 ^ 2 := by omega
  have hus : us < 10 ^ 6 := by omega
  by_cases h0 : us = 0
  · subst h0
    have hmp : microPart 0 = [] := rfl
    simp only [fromisoformat, Datetime.isoformat, hmp, List.nil_append,
      parseFixed_pad 4 y hy, Option.some_bind, expectC_cons_self,
      parseFixed_pad 2 mo hmo, parseFixed_pad 2 da hda,
      parseFixed_pad 2 ho hho, parseFixed_pad 2 mi hmi,
      parseFixed_pad 2 se hse, parseMicro_tzPart, parseTz_tzPart tz h11, if_pos rfl]
    simp
  · simp only [fromisoformat, Datetime.isoformat, microPart, if_neg h0, List.cons_append,
      List.append_assoc, parseFixed_pad 4 y hy, Option.some_bind, expectC_cons_self,
      parseFixed_pad 2 mo hmo, parseFixed_pad 2 da hda,
      parseFixed_pad 2 ho hho, parseFixed_pad 2 mi hmi,
      parseFixed_pad 2 se hse, parseMicro_dot,
      parseFixed_pad 6 us hus, parseTz_tzPart tz h11, if_pos rfl]
    simp

theorem RadioCategory.ofStr_str (c : RadioCategory) : RadioCategory.ofStr c.str = some c := by
  cases c <;> rfl

theorem decodeRadio_encodeRadio (r : RadioMessage) (h : r.date.valid) :
    decodeRadio (encodeRadio r) = some r := by
  obtain ⟨d, dn, mk, ru, sk, cat, du, tr, di⟩ := r
  have hdate : fromisoformat (String.mk d.isoformat).data = some d :=
    fromisoformat_isoformat d h
  cases cat with
  | none => simp [decodeRadio, encodeRadio, hdate]
  | some c => simp [decodeRadio, encodeRadio, hdate, RadioCategory.ofStr_str]

theorem decodeRadios_encode (M : List RadioMessage) (h : ∀ r ∈ M, r.date.valid) :
    decodeRadios (M.map encodeRadio) = some M := by
  induction M with
  | nil => rfl
  | cons r rs ih =>
    have hr : r.date.valid := h r (by simp)
    have hrs : ∀ x ∈ rs, x.date.valid := fun x hx => h x (by simp [hx])
    have ih2 := ih hrs
    simp [decodeRadios, decodeRadio_encodeRadio r hr, ih2]

/-! Helper lemmas about the sorts and pagination. -/

theorem sortSessionsDesc_perm (l : List Session) : (sortSessionsDesc l).Perm l :=
  List.perm_insertionSort _ _

theorem sortSessionsDesc_head_max (l : List Session) (m : Session) (rest : List Session)
    (h : sortSessionsDesc l = m :: rest) :
    ∀ s ∈ l, dateKey s.date_start ≤ dateKey m.date_start := by
  intro s hs
  have hp := sortSessionsDesc_perm l
  have hsorted : List.Sorted sessDescRel (sortSessionsDesc l) :=
    List.sorted_insertionSort _ _
  rw [h] at hp hsorted
  have hmem : s ∈ m :: rest := hp.mem_iff.2 hs
  rcases List.mem_cons.mp hmem with he | ht
  · exact he ▸ Nat.le_refl _
  · exact List.rel_of_sorted_cons hsorted s ht

theorem paginate_concat {α : Type} (l : List α) (per : Nat) :
    ∀ N, (List.range' 1 N).flatMap (fun p => paginate l p per) = l.take (N * per) := by
  intro N
  induction N with
  | zero => simp
  | succ n ih =>
    rw [List.range'_concat, List.flatMap_append, ih]
    simp only [List.flatMap_cons, List.flatMap_nil, List.append_nil]
    have hmul : (n + 1) * per = n * per + per := by ring
    rw [hmul, List.take_add]
    congr 1
    simp [paginate, Nat.zero_mul, Nat.zero_add, Nat.add_sub_cancel_left]

theorem le_ceil_mul (L per : Nat) (h : 0 < per) : L ≤ ((L + per - 1) / per) * per := by
  have h1 : (L + per - 1) % per < per := Nat.mod_lt _ h
  have h2 : per * ((L + per - 1) / per) + (L + per - 1) % per = L + per - 1 :=
    Nat.div_add_mod _ _
  rw [Nat.mul_comm]
  set q := (L + per - 1) / per with hq
  set r := (L + per - 1) % per with hr
  set x := per * q with hx
  omega

/-! Claim theorems. -/

/-- C5: the pagination of the session-radio lookup is 1-based, with the page
size bounded between 1 and 200 inclusive (the hypotheses below); over any
sequence, concatenating pages 1..N for N = ceil(L/P) reconstructs the
sequence exactly (exhaustive and non-overlapping), any later page yields an
empty slice rather than an error, and the handler's returned page is exactly
the `paginate` slice of the sorted, filtered sequence. -/
theorem C5_pagination (l : List RadioMessage) (per page : Nat)
    (h1 : 1 ≤ per) (h2 : per ≤ 200) :
    ((List.range' 1 ((l.length + per - 1) / per)).flatMap fun p => paginate l p per) = l
  ∧ ((l.length + per - 1) / per < page → paginate l page per = [])
  ∧ paginate l 1 per = l.take per
  ∧ ∀ radios dn, (finalizeRadios radios dn page per).radios
      = paginate (sortRadiosDesc (driverFilter dn radios)) page per := by
  refine ⟨?_, ?_, ?_, ?_⟩
  · rw [paginate_concat l per]
    exact List.take_of_length_le (le_ceil_mul l.length per (by omega))
  · intro hp
    have hml : ((l.length + per - 1) / per) * per ≤ (page - 1) * per :=
      Nat.mul_le_mul_right per (by omega)
    have hge : l.length ≤ (page - 1) * per :=
      Nat.le_trans (le_ceil_mul l.length per (by omega)) hml
    simp [paginate, List.drop_eq_nil_of_le hge]
  · simp [paginate]
  · intro radios dn
    rfl

/-- C6: the save/load round trip of the radio cache store: after a
successful `save_radios` of a well-formed message list under a key,
`load_radios` of that key returns exactly that list, the timestamps having
survived the text encoding unchanged. -/
theorem C6_save_load_roundtrip (st : Storage) (k : Int) (M : List RadioMessage)
    (now : String) (hw : st.writeFails = false) (hM : ∀ r ∈ M, r.date.valid) :
    load_radios (save_radios st M k now).2 k = some M := by
  simp only [save_radios, hw, Bool.false_eq_true, if_false]
  simp [load_radios, load_radios_body, mkRadioFile, decodeRadios_encode M hM]

/-- C7: `get_latest_session` returns the session with the maximum start
timestamp among the sessions of an unfiltered fetch, returns nothing when
the upstream has zero sessions, and converts every fetch failure into an
absent result instead of propagating it. -/
theorem C7_latest_session (env : Env) :
    (∀ e, env.fetchSessions (sessionsParams none none none) = .error e →
       (get_latest_session env).1 = none)
  ∧ (env.fetchSessions (sessionsParams none none none) = .ok [] →
       (get_latest_session env).1 = none)
  ∧ (∀ l, env.fetchSessions (sessionsParams none none none) = .ok l → l ≠ [] →
       ∃ m, (get_latest_session env).1 = some m ∧ m ∈ l ∧
         ∀ s ∈ l, dateKey s.date_start ≤ dateKey m.date_start) := by
  refine ⟨?_, ?_, ?_⟩
  · intro e he
    simp [get_latest_session, he]
  · intro he
    simp [get_latest_session, he, sortSessionsDesc, List.insertionSort]
  · intro l hl hne
    cases hsort : sortSessionsDesc l with
    | nil =>
      exfalso
      have := (sortSessionsDesc_perm l).length_eq
      rw [hsort] at this
      exact hne (List.eq_nil_of_length_eq_zero this.symm)
    | cons m rest =>
      refine ⟨m, ?_, ?_, sortSessionsDesc_head_max l m rest hsort⟩
      · simp [get_latest_session, hl, hsort]
      · have hp := sortSessionsDesc_perm l
        rw [hsort] at hp
        exact hp.subset (List.mem_cons_self m rest)

/-- C8: every failure of the cache store operations is absorbed at the
operation boundary: a load whose body raises (corrupt file, failed
reconstruction) returns an absent result, a missing file is an absent
result, and a save whose write raises returns false and leaves the state
unchanged; no error escapes this layer. -/
theorem C8_fail_soft_boundary (st : Storage) (k : Int) :
    (∀ e, load_radios_body st k = .error e → load_radios st k = none)
  ∧ (st.radioFiles k = .missing → load_radios st k = none)
  ∧ (st.radioFiles k = .corrupt → load_radios st k = none)
  ∧ (∀ f, st.radioFiles k = .good f → decodeRadios f.radios = none →
      load_radios st k = none)
  ∧ (∀ e, load_sessions_body st = .error e → load_sessions st = none)
  ∧ (st.sessionsFile = .missing → load_sessions st = none)
  ∧ (st.sessionsFile = .corrupt → load_sessions st = none)
  ∧ (∀ f, st.sessionsFile = .good f → decodeSessions f.sessions = none →
      load_sessions st = none)
  ∧ (st.writeFails = true → ∀ radios now,
      (save_radios st radios k now).1 = false ∧ (save_radios st radios k now).2 = st)
  ∧ (st.writeFails = true → ∀ sessions now,
      (save_sessions st sessions now).1 = false ∧ (save_sessions st sessions now).2 = st) := by
  refine ⟨?_, ?_, ?_, ?_, ?_, ?_, ?_, ?_, ?_, ?_⟩
  · intro e he; simp [load_radios, he]
  · intro hm; simp [load_radios, load_radios_body, hm]
  · intro hc; simp [load_radios, load_radios_body, hc]
  · intro f hf hd; simp [load_radios, load_radios_body, hf, hd]
  · intro e he; simp [load_sessions, he]
  · intro hm; simp [load_sessions, load_sessions_body, hm]
  · intro hc; simp [load_sessions, load_sessions_body, hc]
  · intro f hf hd; simp [load_sessions, load_sessions_body, hf, hd]
  · intro hw radios now; simp [save_radios, hw]
  · intro hw sessions now; simp [save_sessions, hw]

/-- C9: every cache entry produced by a save stores a `count` equal to the
length of the record array persisted in the same entry, for radios and for
sessions, and a successful save installs exactly that entry. -/
theorem C9_count_invariant (radios : List RadioMessage) (k : Int) (now : String)
    (sessions : List Session) :
    (mkRadioFile radios k now).count = (mkRadioFile radios k now).radios.length
  ∧ (mkSessionsFile sessions now).count = (mkSessionsFile sessions now).sessions.length
  ∧ (∀ st : Storage, st.writeFails = false →
      (save_radios st radios k now).2.radioFiles k = .good (mkRadioFile radios k now))
  ∧ (∀ st : Storage, st.writeFails = false →
      (save_sessions st sessions now).2.sessionsFile = .good (mkSessionsFile sessions now)) := by
  refine ⟨?_, ?_, ?_, ?_⟩
  · simp [mkRadioFile]
  · simp [mkSessionsFile]
  · intro st hw; simp [save_radios, hw]
  · intro st hw; simp [save_sessions, hw]

/-- C10: a supplied filter value of integer 0 behaves as an absent filter: a
session-radio lookup with driver number 0 applies no driver filter, and the
upstream query builders omit any session key, driver number, meeting key or
year equal to 0 and any empty session name, querying as if unfiltered. -/
theorem C10_zero_is_unfiltered (d m y : Option Int) (s : Option String) (env : Env)
    (k : Int) (page per : Nat) (uc : Bool) :
    teamRadioParams (some 0) d m = teamRadioParams none d m
  ∧ teamRadioParams d (some 0) m = teamRadioParams d none m
  ∧ teamRadioParams d m (some 0) = teamRadioParams d m none
  ∧ sessionsParams (some 0) s y = sessionsParams none s y
  ∧ sessionsParams m (some "") y = sessionsParams m none y
  ∧ sessionsParams m s (some 0) = sessionsParams m s none
  ∧ driversParams (some 0) = driversParams none
  ∧ get_session_radios env k (some 0) page per uc = get_session_radios env k none page per uc := by
  refine ⟨rfl, rfl, rfl, rfl, rfl, rfl, rfl, rfl⟩

/-- C1: the invariant that only a general (unfiltered) upstream result is
ever written back to the global sessions cache FAILS on the code: on a
sessions-cache miss with a year filter (and no meeting or session-name
filter) `get_sessions` queries upstream WITH the year parameter and writes
that year-filtered collection back as the global sessions cache entry; the
entry differs from the unfiltered fetch result, so year is not applied only
as an in-memory post-filter. -/
theorem C1_year_filtered_entry_saved :
    (get_sessions_route envC1 (some 2023) none none true).2
        = [.loadSessions,
           .fetchSessions { meeting_key := none, session_name := none, year := some 2023 },
           .saveSessions [sessEx2023]]
  ∧ envC1.fetchSessions { meeting_key := none, session_name := none, year := none }
        = .ok [sessEx2023, sessEx2022]
  ∧ ([sessEx2023] : List Session) ≠ [sessEx2023, sessEx2022] := by
  refine ⟨rfl, rfl, by decide⟩

/-- C2: the session-radio lookup uses a non-empty cached list without any
upstream fetch when `use_cache` holds; otherwise (cache disabled, cache
miss, or cached list empty) it fetches upstream, then always saves the
fetched list, and the response does not depend on the save outcome. -/
theorem C2_radio_cache_policy (env : Env) (k : Int) (dn : Option Int) (page per : Nat) :
    (∀ l, env.loadRadios k = some l → l ≠ [] →
       (get_session_radios env k dn page per true).1 = .ok (finalizeRadios l dn page per)
         ∧ ∀ p, Event.fetchTeamRadio p ∉ (get_session_radios env k dn page per true).2)
  ∧ (∀ res, (env.loadRadios k = none ∨ env.loadRadios k = some []) →
       env.fetchTeamRadio (teamRadioParams (some k) none none) = .ok res →
       (get_session_radios env k dn page per true).2
           = [.loadRadios k, .fetchTeamRadio (teamRadioParams (some k) none none),
              .saveRadios k res]
         ∧ (get_session_radios env k dn page per true).1
             = .ok (finalizeRadios res dn page per))
  ∧ (∀ res, env.fetchTeamRadio (teamRadioParams (some k) none none) = .ok res →
       (get_session_radios env k dn page per false).2
           = [.fetchTeamRadio (teamRadioParams (some k) none none), .saveRadios k res]
         ∧ (get_session_radios env k dn page per false).1
             = .ok (finalizeRadios res dn page per))
  ∧ (∀ env2 : Env, env2.loadRadios = env.loadRadios →
       env2.fetchTeamRadio = env.fetchTeamRadio →
       ∀ uc, get_session_radios env2 k dn page per uc
           = get_session_radios env k dn page per uc) := by
  refine ⟨?_, ?_, ?_, ?_⟩
  · intro l hl hne
    cases l with
    | nil => exact absurd rfl hne
    | cons r rs =>
      refine ⟨?_, ?_⟩
      · simp [get_session_radios, hl]
      · intro p
        simp [get_session_radios, hl]
  · intro res hload hfetch
    rcases hload with hload | hload <;> simp [get_session_radios, hload, hfetch]
  · intro res hfetch
    simp [get_session_radios, hfetch]
  · intro env2 h1 h2 uc
    simp only [get_session_radios, h1, h2]

/-- Witness for C2 at a concrete environment: a non-empty cached list for
key 9158 is served without any upstream fetch. -/
theorem C2_radio_cache_policy_witness :
    (get_session_radios envW2 9158 none 1 50 true).1
        = .ok (finalizeRadios [rmsgEx] none 1 50)
      ∧ ∀ p, Event.fetchTeamRadio p ∉ (get_session_radios envW2 9158 none 1 50 true).2 :=
  (C2_radio_cache_policy envW2 9158 none 1 50).1 [rmsgEx] rfl (by decide)

/-- C3: the claim that a present cache entry with `forceRefresh` false is
always reported as cache_used FAILS on the code when the present entry is
an empty list: the handler treats the falsy empty list as a miss, fetches
upstream, and reports synced. -/
theorem C3_sync_counterexample :
    envC3.loadRadios 9158 = some []
  ∧ (sync_session_radios envC3 9158 false).1
      = .ok { radio_count := 1, action := .synced }
  ∧ Event.fetchTeamRadio (teamRadioParams (some 9158) none none)
      ∈ (sync_session_radios envC3 9158 false).2 := by
  refine ⟨rfl, rfl, by decide⟩

/-- C3 (amended): sync reports cache_used with the existing count and
performs no upstream action exactly when the cached entry is present AND
non-empty and no refresh is forced; otherwise it fetches upstream, saves,
reports synced with the new count, and fails exactly when that save
returns false. -/
theorem C3_sync_cache_policy (env : Env) (k : Int) (force : Bool) :
    (∀ l, env.loadRadios k = some l → l ≠ [] → force = false →
       (sync_session_radios env k force).1
           = .ok { radio_count := l.length, action := .cache_used }
         ∧ (sync_session_radios env k force).2 = [.loadRadios k])
  ∧ (∀ res, (env.loadRadios k = none ∨ env.loadRadios k = some [] ∨ force = true) →
       env.fetchTeamRadio (teamRadioParams (some k) none none) = .ok res →
       (sync_session_radios env k force).2
           = [.loadRadios k, .fetchTeamRadio (teamRadioParams (some k) none none),
              .saveRadios k res]
         ∧ (sync_session_radios env k force).1
             = (if env.saveRadiosOk k res
                then .ok { radio_count := res.length, action := .synced }
                else .error 500)) := by
  refine ⟨?_, ?_⟩
  · intro l hl hne hforce
    subst hforce
    cases l with
    | nil => exact absurd rfl hne
    | cons r rs => refine ⟨by simp [sync_session_radios, hl], by simp [sync_session_radios, hl]⟩
  · intro res hload hfetch
    rcases hload with hload | hload | hload
    · cases hsave : env.saveRadiosOk k res <;>
        simp [sync_session_radios, hload, hfetch, hsave]
    · cases hsave : env.saveRadiosOk k res <;>
        simp [sync_session_radios, hload, hfetch, hsave]
    · subst hload
      cases hl : env.loadRadios k with
      | none =>
        cases hsave : env.saveRadiosOk k res <;>
          simp [sync_session_radios, hl, hfetch, hsave]
      | some l =>
        cases l with
        | nil =>
          cases hsave : env.saveRadiosOk k res <;>
            simp [sync_session_radios, hl, hfetch, hsave]
        | cons r rs =>
          cases hsave : env.saveRadiosOk k res <;>
            simp [sync_session_radios, hl, hfetch, hsave]

/-- Witness for the amended C3 at a concrete environment: a non-empty
cached entry with no forced refresh is reported as cache_used with no
upstream call. -/
theorem C3_sync_cache_policy_witness :
    (sync_session_radios envW2 9158 false).1
        = .ok { radio_count := 1, action := .cache_used }
      ∧ (sync_session_radios envW2 9158 false).2 = [.loadRadios 9158] :=
  (C3_sync_cache_policy envW2 9158 false).1 [rmsgEx] rfl (by decide) rfl

theorem get_sessions_route_filtered (env : Env) (year meeting_key : Option Int)
    (session_name : Option String) (use_cache : Bool)
    (hg : (truthyInt meeting_key || truthyStr session_name) = true) :
    get_sessions_route env year meeting_key session_name use_cache =
      (match env.fetchSessions (sessionsParams meeting_key session_name year) with
       | .error _ =>
         (.error 500, [.fetchSessions (sessionsParams meeting_key session_name year)])
       | .ok fetched =>
         (.ok (sortSessionsDesc fetched),
           [.fetchSessions (sessionsParams meeting_key session_name year)])) := by
  simp only [get_sessions_route, hg, Bool.not_true, Bool.and_false, if_false]
  cases env.fetchSessions (sessionsParams meeting_key session_name year) <;> simp

/-- C4: a sessions listing with a truthy (non-empty, non-zero) meetingKey
or a truthy session name never reads from or writes the global sessions
cache entry, and its result is the sorted upstream fetch. -/
theorem C4_filtered_query_bypasses_cache (env : Env) (year meeting_key : Option Int)
    (session_name : Option String) (use_cache : Bool)
    (h : truthyInt meeting_key = true ∨ truthyStr session_name = true) :
    Event.loadSessions ∉ (get_sessions_route env year meeting_key session_name use_cache).2
  ∧ (∀ l, Event.saveSessions l
        ∉ (get_sessions_route env year meeting_key session_name use_cache).2)
  ∧ (∀ l, env.fetchSessions (sessionsParams meeting_key session_name year) = .ok l →
      (get_sessions_route env year meeting_key session_name use_cache).1
        = .ok (sortSessionsDesc l)) := by
  have hg : (truthyInt meeting_key || truthyStr session_name) = true := by
    rcases h with h | h <;> simp [h]
  rw [get_sessions_route_filtered env year meeting_key session_name use_cache hg]
  refine ⟨?_, ?_, ?_⟩
  · cases env.fetchSessions (sessionsParams meeting_key session_name year) <;> simp
  · intro l
    cases env.fetchSessions (sessionsParams meeting_key session_name year) <;> simp
  · intro l hf
    rw [hf]

/-- Witness for C4 at a concrete environment: with meetingKey 1219 the
cached sessions list is neither read nor written and the upstream result is
served. -/
theorem C4_filtered_query_bypasses_cache_witness :
    Event.loadSessions ∉ (get_sessions_route envW4 none (some 1219) none true).2
  ∧ (get_sessions_route envW4 none (some 1219) none true).1
      = .ok (sortSessionsDesc [sessEx2023]) := by
  have h := C4_filtered_query_bypasses_cache envW4 none (some 1219) none true
    (Or.inl (by decide))
  exact ⟨h.1, h.2.2 [sessEx2023] rfl⟩

/-- Witness for C5 at a concrete list: one message with page size 50 forms
one page, page 3 is empty, and the handler slice agrees with `paginate`. -/
theorem C5_pagination_witness :
    ((List.range' 1 (([rmsgEx].length + 50 - 1) / 50)).flatMap
        fun p => paginate [rmsgEx] p 50) = [rmsgEx]
  ∧ paginate [rmsgEx] 3 50 = []
  ∧ paginate [rmsgEx] 1 50 = [rmsgEx].take 50
  ∧ (finalizeRadios [rmsgEx] none 3 50).radios
      = paginate (sortRadiosDesc (driverFilter none [rmsgEx])) 3 50 := by
  obtain ⟨a, b, c, d⟩ := C5_pagination [rmsgEx] 50 3 (by decide) (by decide)
  exact ⟨a, b (by decide), c, d [rmsgEx] none⟩

/-- Witness for C6 at a concrete state and message list. -/
theorem C6_save_load_roundtrip_witness :
    load_radios (save_radios stEx [rmsgEx] 9158 "2024-01-01T00:00:00").2 9158
      = some [rmsgEx] :=
  C6_save_load_roundtrip stEx 9158 [rmsgEx] "2024-01-01T00:00:00" rfl (by decide)

/-- Witness for C7 at concrete environments: a raising upstream and an
upstream with zero sessions both yield an absent latest session. -/
theorem C7_latest_session_witness :
    (get_latest_session envW7err).1 = none ∧ (get_latest_session envW7empty).1 = none :=
  ⟨(C7_latest_session envW7err).1 () rfl, (C7_latest_session envW7empty).2.1 rfl⟩

/-- Witness for C8 at a fully corrupt state: loads are absent, saves report
false and change nothing. -/
theorem C8_fail_soft_boundary_witness :
    load_radios stC8 1 = none ∧ load_sessions stC8 = none
  ∧ (save_radios stC8 [] 1 "t").1 = false ∧ (save_sessions stC8 [] "t").1 = false := by
  obtain ⟨a, b, c, d, e, f, g, h8, i, j⟩ := C8_fail_soft_boundary stC8 1
  exact ⟨c rfl, g rfl, (i rfl [] "t").1, (j rfl [] "t").1⟩

/-- Witness for C9 at a concrete state: the saved entries are exactly the
constructed ones, whose counts equal their array lengths. -/
theorem C9_count_invariant_witness :
    (save_radios stEx [rmsgEx] 9158 "t").2.radioFiles 9158
        = .good (mkRadioFile [rmsgEx] 9158 "t")
  ∧ (save_sessions stEx [sessEx2023] "t").2.sessionsFile
        = .good (mkSessionsFile [sessEx2023] "t") := by
  obtain ⟨_, _, c, d⟩ := C9_count_invariant [rmsgEx] 9158 "t" [sessEx2023]
  exact ⟨c stEx rfl, d stEx rfl⟩

end F1Radio
